import Mathlib

/-!
Verification of the analytical pipeline of the repository
"Do I Suck Or Am I Unlucky" against its natural-language specification.

The pipeline code is embedded shallowly: pandas/JSON records become Lean
structures and lists, Python floats become rationals, Python dict lookup
becomes association-list lookup with last-insertion-wins semantics, and
functions that can raise become Except-valued functions.
-/

/-! ## Outcome bucket classifier (S09_merge_impact_and_expected.py, bucket_game) -/

/-- Embedding of `bucket_game` from S09_merge_impact_and_expected.py.
The row fields p_win_10min, win, impact_score are passed as arguments;
thresholds appear inline exactly as the source computes its four flags. -/
def bucket_game (p : ℚ) (win : Bool) (impact : ℚ) : String :=
  let high_exp : Bool := decide (p ≥ 65/100)
  let low_exp : Bool := decide (p ≤ 40/100)
  let high_imp : Bool := decide (impact ≥ 1/2)
  let low_imp : Bool := decide (impact ≤ -(1/2))
  if !win && high_exp && low_imp then "THROW"
  else if !win && high_exp && high_imp then "UNLUCKY LOSS"
  else if !win && high_exp then "UPSET LOSS"
  else if win && low_exp && high_imp then "CLUTCH WIN"
  else if win && low_exp && low_imp then "LUCKY WIN"
  else if win && low_exp then "UPSET WIN"
  else if win && high_exp then "EXPECTED WIN"
  else if !win && low_exp then "EXPECTED LOSS"
  else if win then "TOSS-UP WIN" else "TOSS-UP LOSS"

/-- Embedding of `bucket_rule` from app.py (the dashboard re-declares the
thresholds as local constants HIGH_EXP, LOW_EXP, HIGH_IMP, LOW_IMP). -/
def bucket_rule (p_win : ℚ) (win : Bool) (impact : ℚ) : String :=
  let HIGH_EXP : ℚ := 65/100
  let LOW_EXP : ℚ := 40/100
  let HIGH_IMP : ℚ := 1/2
  let LOW_IMP : ℚ := -(1/2)
  let high_exp : Bool := decide (p_win ≥ HIGH_EXP)
  let low_exp : Bool := decide (p_win ≤ LOW_EXP)
  let high_imp : Bool := decide (impact ≥ HIGH_IMP)
  let low_imp : Bool := decide (impact ≤ LOW_IMP)
  if !win && high_exp && low_imp then "THROW"
  else if !win && high_exp && high_imp then "UNLUCKY LOSS"
  else if !win && high_exp then "UPSET LOSS"
  else if win && low_exp && high_imp then "CLUTCH WIN"
  else if win && low_exp && low_imp then "LUCKY WIN"
  else if win && low_exp then "UPSET WIN"
  else if win && high_exp then "EXPECTED WIN"
  else if !win && low_exp then "EXPECTED LOSS"
  else if win then "TOSS-UP WIN" else "TOSS-UP LOSS"

/-- The ordered nine-rule table of spec section 4.8, transcribed from the
words of the spec (first matching rule wins), for comparison with the
source embedding `bucket_game`. -/
def spec_bucket_table (p : ℚ) (win : Bool) (impact : ℚ) : String :=
  if win = false ∧ p ≥ 65/100 ∧ impact ≤ -(1/2) then "THROW"
  else if win = false ∧ p ≥ 65/100 ∧ impact ≥ 1/2 then "UNLUCKY LOSS"
  else if win = false ∧ p ≥ 65/100 then "UPSET LOSS"
  else if win = true ∧ p ≤ 40/100 ∧ impact ≥ 1/2 then "CLUTCH WIN"
  else if win = true ∧ p ≤ 40/100 ∧ impact ≤ -(1/2) then "LUCKY WIN"
  else if win = true ∧ p ≤ 40/100 then "UPSET WIN"
  else if win = true ∧ p ≥ 65/100 then "EXPECTED WIN"
  else if win = false ∧ p ≤ 40/100 then "EXPECTED LOSS"
  else if win then "TOSS-UP WIN" else "TOSS-UP LOSS"

/-- C1: `bucket_game` realises the ordered nine-rule table of spec section
4.8 with thresholds HIGH_EXP=0.65, LOW_EXP=0.40, HIGH_IMP=0.5, LOW_IMP=-0.5,
first-match-wins; in particular the four example evaluations of the spec
hold: (0.80, loss, 0.6) is UNLUCKY LOSS, (0.80, loss, -0.6) is THROW,
(0.20, win, 0.6) is CLUTCH WIN, and (0.50, win, 0.0) is TOSS-UP WIN. -/
theorem bucket_game_realises_spec_table :
    (∀ (p : ℚ) (win : Bool) (impact : ℚ),
      bucket_game p win impact = spec_bucket_table p win impact) ∧
    bucket_game (80/100) false (6/10) = "UNLUCKY LOSS" ∧
    bucket_game (80/100) false (-(6/10)) = "THROW" ∧
    bucket_game (20/100) true (6/10) = "CLUTCH WIN" ∧
    bucket_game (50/100) true 0 = "TOSS-UP WIN" := by
  refine ⟨?_, by norm_num [bucket_game], by norm_num [bucket_game],
    by norm_num [bucket_game], by norm_num [bucket_game]⟩
  intro p win impact
  cases win <;>
    by_cases h1 : p ≥ 65/100 <;>
    by_cases h2 : p ≤ 40/100 <;>
    by_cases h3 : impact ≥ 1/2 <;>
    by_cases h4 : impact ≤ -(1/2) <;>
    simp [bucket_game, spec_bucket_table, h1, h2, h3, h4]

/-- C9: the two independently declared bucket implementations, `bucket_game`
in S09 and `bucket_rule` in the dashboard, agree on every input triple:
the re-declared thresholds and rule orderings define one classification
function. -/
theorem bucket_game_eq_bucket_rule :
    ∀ (p : ℚ) (win : Bool) (impact : ℚ),
      bucket_game p win impact = bucket_rule p win impact := by
  intro p win impact
  rfl

/-! ## Luck aggregator (app.py luck_metrics, S08 luck summary) -/

/-- Result record of `luck_metrics` in app.py: the four dictionary keys. -/
structure LuckMetrics where
  games : ℕ
  actual_wins : ℕ
  expected_wins : ℚ
  luck_diff : ℚ
deriving DecidableEq

/-- Embedding of `luck_metrics` from app.py: a dataframe row is the pair
(win flag, p_win_10min); the empty dataframe returns the all-zero record. -/
def luck_metrics (d : List (Bool × ℚ)) : LuckMetrics :=
  if d.length = 0 then ⟨0, 0, 0, 0⟩
  else
    let actual_wins : ℕ := (d.map (fun g => if g.1 then 1 else 0)).sum
    let expected_wins : ℚ := (d.map (·.2)).sum
    ⟨d.length, actual_wins, expected_wins, (actual_wins : ℚ) - expected_wins⟩

/-- Embedding of the luck computation in `main` of
S08_expected_wins_timeline_model.py lines 225 to 227:
actual wins minus summed win probabilities. -/
def luck_diff_S08 (wins : List Bool) (p_win : List ℚ) : ℚ :=
  let actual_wins : ℕ := (wins.map (fun w => if w then 1 else 0)).sum
  (actual_wins : ℚ) - p_win.sum

/-- Fixed two-decimal rendering of a rational, modelling the Python format
specifier .2f used by the dashboard (evaluated only away from rounding
ties, where the float and rational renderings agree). -/
def fmt2 (q : ℚ) : String :=
  let c : ℤ := round (q * 100)
  let n : ℕ := c.natAbs
  let sign : String := if c < 0 then "-" else ""
  let frac : ℕ := n % 100
  let fracStr : String := if frac < 10 then "0" ++ toString frac else toString frac
  sign ++ toString (n / 100) ++ "." ++ fracStr

/-- Embedding of the dashboard summary message for the luck differential,
app.py lines 369 to 376: the only qualitative rendering of luck_diff in
the repository, and it depends only on the sign of luck_diff. -/
def luck_summary_msg (ld : ℚ) : String :=
  if ld > 0 then "You won " ++ fmt2 ld ++ " more than expected"
  else if ld < 0 then "You lost " ++ fmt2 |ld| ++ " more than expected"
  else "You won exactly as expected"

/-- The five-level qualitative label of spec section 4.9, transcribed from
the words of the spec for comparison with the code; no function in the
repository computes these labels. -/
def spec_luck_label (ld : ℚ) : String :=
  if ld ≥ 5 then "clearly lucky"
  else if ld ≤ -5 then "clearly unlucky"
  else if ld ≥ 5/2 then "kinda lucky"
  else if ld ≤ -(5/2) then "kinda unlucky"
  else "about as expected"

/-- The concrete input of the claim: four games with expected probability
one half each and three actual wins. -/
def luck_example_input : List (Bool × ℚ) :=
  [(true, 1/2), (true, 1/2), (true, 1/2), (false, 1/2)]

lemma sum_boole_eq_countP (d : List (Bool × ℚ)) :
    (d.map (fun g => if g.1 then (1 : ℕ) else 0)).sum = d.countP (·.1) := by
  induction d with
  | nil => simp
  | cons a t ih =>
    simp only [List.map_cons, List.sum_cons, List.countP_cons, ih]
    cases h : a.1 <;> simp [h, Nat.add_comm]

lemma fmt2_one : fmt2 1 = "1.00" := by
  have h100 : ((1 : ℚ) * 100) = ((100 : ℤ) : ℚ) := by norm_num
  simp only [fmt2, h100, round_intCast]
  rfl

/-- C8 counterexample: on the claim's own input (four games at probability
one half, three wins) the code computes luck_diff = 1 but the only
qualitative rendering the repository produces for that value is the
dashboard message, which is not the claimed label "about as expected";
no function of the repository computes the five-level spec labels. -/
theorem luck_label_counterexample :
    (luck_metrics luck_example_input).luck_diff = 1 ∧
    spec_luck_label ((luck_metrics luck_example_input).luck_diff) = "about as expected" ∧
    luck_summary_msg ((luck_metrics luck_example_input).luck_diff) =
      "You won 1.00 more than expected" ∧
    luck_summary_msg ((luck_metrics luck_example_input).luck_diff) ≠
      spec_luck_label ((luck_metrics luck_example_input).luck_diff) := by
  have hld : (luck_metrics luck_example_input).luck_diff = 1 := by
    simp [luck_metrics, luck_example_input]
    norm_num
  refine ⟨hld, ?_, ?_, ?_⟩
  · rw [hld]; norm_num [spec_luck_label]
  · rw [hld]
    simp only [luck_summary_msg, if_pos (by norm_num : (1 : ℚ) > 0), fmt2_one]
    rfl
  · rw [hld]
    simp only [luck_summary_msg, if_pos (by norm_num : (1 : ℚ) > 0), fmt2_one]
    norm_num [spec_luck_label]
    decide

/-- C8 amended: luck_metrics computes actual_wins as the number of won
games, expected_wins as the sum of the probabilities, and
luck_diff = actual_wins - expected_wins (agreeing with the S08 report
formula); at the claim's concrete input luck_diff = 1. The repository
assigns no five-level qualitative label: the dashboard message at that
input is "You won 1.00 more than expected" and depends only on the sign
of luck_diff. -/
theorem luck_metrics_law :
    (∀ d : List (Bool × ℚ),
      (luck_metrics d).actual_wins = d.countP (·.1) ∧
      (luck_metrics d).expected_wins = (d.map (·.2)).sum ∧
      (luck_metrics d).luck_diff =
        ((d.countP (·.1) : ℚ)) - (d.map (·.2)).sum ∧
      (luck_metrics d).luck_diff = luck_diff_S08 (d.map (·.1)) (d.map (·.2))) ∧
    (luck_metrics luck_example_input).luck_diff = 1 ∧
    luck_summary_msg 1 = "You won 1.00 more than expected" := by
  refine ⟨?_, ?_, ?_⟩
  · intro d
    match d with
    | [] => simp [luck_metrics, luck_diff_S08]
    | a :: t =>
      have hlen : (a :: t).length ≠ 0 := by simp
      have hcount := sum_boole_eq_countP (a :: t)
      have hbool : (((a :: t).map (·.1)).map (fun w => if w then (1 : ℕ) else 0))
          = (a :: t).map (fun g => if g.1 then (1 : ℕ) else 0) := by
        simp [List.map_map, Function.comp]
      refine ⟨?_, ?_, ?_, ?_⟩
      · simp only [luck_metrics, if_neg hlen, hcount]
      · simp only [luck_metrics, if_neg hlen]
      · simp only [luck_metrics, if_neg hlen, hcount]
      · simp only [luck_metrics, if_neg hlen, luck_diff_S08, hbool, hcount]
  · simp [luck_metrics, luck_example_input]
    norm_num
  · simp only [luck_summary_msg, if_pos (by norm_num : (1 : ℚ) > 0), fmt2_one]
    rfl

/-! ## Share metrics (S04_add_features_and_filter_me.py, add_impact_features) -/

/-- The columns of a row of players_with_features that
`add_impact_features` reads (team totals already merged by
`add_team_totals`). -/
structure S04Row where
  kills : ℚ
  assists : ℚ
  damage_to_champions : ℚ
  gold_earned : ℚ
  vision_score : ℚ
  team_kills : ℚ
  team_damage_to_champions : ℚ
  team_gold : ℚ
  game_minutes : ℚ
deriving DecidableEq

/-- Pandas .replace(\x7b0: 1\x7d) applied to a denominator column. -/
def replace_zero_one (x : ℚ) : ℚ := if x = 0 then 1 else x

/-- The four ratio columns `add_impact_features` adds. -/
structure S04Features where
  kill_participation : ℚ
  damage_share : ℚ
  gold_share : ℚ
  vision_per_min : ℚ
deriving DecidableEq

/-- Embedding of `add_impact_features` from
S04_add_features_and_filter_me.py: the three team denominators are made
safe by replacing 0 with 1 before dividing. -/
def add_impact_features (r : S04Row) : S04Features :=
  let team_kills_safe := replace_zero_one r.team_kills
  let team_damage_safe := replace_zero_one r.team_damage_to_champions
  let team_gold_safe := replace_zero_one r.team_gold
  { kill_participation := (r.kills + r.assists) / team_kills_safe
    damage_share := r.damage_to_champions / team_damage_safe
    gold_share := r.gold_earned / team_gold_safe
    vision_per_min := r.vision_score / r.game_minutes }

/-- C10: every denominator used for the three share metrics is nonzero
after the 0-to-1 replacement, so kill_participation, damage_share and
gold_share are genuine divisions by a nonzero number for every row; on a
team with zero team kills kill_participation degrades to kills + assists,
and likewise for the other two shares. -/
theorem add_impact_features_total (r : S04Row) :
    replace_zero_one r.team_kills ≠ 0 ∧
    replace_zero_one r.team_damage_to_champions ≠ 0 ∧
    replace_zero_one r.team_gold ≠ 0 ∧
    (add_impact_features r).kill_participation * replace_zero_one r.team_kills =
      r.kills + r.assists ∧
    (r.team_kills = 0 →
      (add_impact_features r).kill_participation = r.kills + r.assists) ∧
    (r.team_damage_to_champions = 0 →
      (add_impact_features r).damage_share = r.damage_to_champions) ∧
    (r.team_gold = 0 →
      (add_impact_features r).gold_share = r.gold_earned) := by
  have hsafe : ∀ x : ℚ, replace_zero_one x ≠ 0 := by
    intro x
    by_cases hx : x = 0 <;> simp [replace_zero_one, hx]
  refine ⟨hsafe _, hsafe _, hsafe _, ?_, ?_, ?_, ?_⟩
  · exact div_mul_cancel₀ _ (hsafe r.team_kills)
  · intro h; simp [add_impact_features, replace_zero_one, h]
  · intro h; simp [add_impact_features, replace_zero_one, h]
  · intro h; simp [add_impact_features, replace_zero_one, h]

/-- C10 witness: a concrete row with all three team totals zero, where the
three shares evaluate to the raw numerators. -/
theorem add_impact_features_total_witness :
    replace_zero_one (⟨2, 3, 7, 11, 4, 0, 0, 0, 20⟩ : S04Row).team_kills ≠ 0 ∧
    (add_impact_features ⟨2, 3, 7, 11, 4, 0, 0, 0, 20⟩).kill_participation = 2 + 3 ∧
    (add_impact_features ⟨2, 3, 7, 11, 4, 0, 0, 0, 20⟩).damage_share = 7 ∧
    (add_impact_features ⟨2, 3, 7, 11, 4, 0, 0, 0, 20⟩).gold_share = 11 := by
  obtain ⟨h1, _, _, _, h5, h6, h7⟩ :=
    add_impact_features_total ⟨2, 3, 7, 11, 4, 0, 0, 0, 20⟩
  exact ⟨h1, h5 rfl, h6 rfl, h7 rfl⟩

/-! ## Role-aware impact score (S06_role_impact_score.py) -/

/-- Pandas Series.mean of a column restricted to one group. -/
def listMean (g : List ℚ) : ℚ := g.sum / g.length

/-- Population variance (the square of Series.std with ddof=0). -/
def popVar (g : List ℚ) : ℚ :=
  ((g.map (fun x => (x - listMean g) ^ 2)).sum) / g.length

/-- The values of one metric column restricted to one role group, in
dataframe order. -/
def role_group (rows : List (String × ℚ)) (r : String) : List ℚ :=
  (rows.filter (fun s => s.1 == r)).map (·.2)

/-- The body of the inner function z of `zscore_within_role`, applied to
one value x of a group g. The float square root of the population
variance is abstracted as sqrtQ; the source branch std == 0 is the branch
sqrtQ (popVar g) = 0 here. The isna(std) disjunct of the source guards
only the empty group, which groupby never produces, and the model has no
NaN value. -/
def z_of (sqrtQ : ℚ → ℚ) (g : List ℚ) (x : ℚ) : ℚ :=
  let std := sqrtQ (popVar g)
  if std = 0 then (x - listMean g) * 0
  else (x - listMean g) / std

/-- Embedding of `zscore_within_role`: groupby(role).apply(z) with
group_keys=False aligns the group results back onto the original index, so
row i receives the z of its own value within its own role group. -/
def zscore_within_role (sqrtQ : ℚ → ℚ) (rows : List (String × ℚ)) : List ℚ :=
  rows.map (fun rv => z_of sqrtQ (role_group rows rv.1) rv.2)

/-- The metric columns of a player-game row that `build_impact_score`
reads, with the role possibly missing as in the source dataframe. -/
structure PlayerRow where
  role : Option String
  damage_share : ℚ
  kill_participation : ℚ
  cs_per_min : ℚ
  vision_per_min : ℚ
deriving DecidableEq

/-- Embedding of `build_impact_score`: fillna("UNKNOWN") on the role,
four within-role z-columns, then the fixed-weight sum
0.35, 0.30, 0.25, 0.10. -/
def build_impact_score (sqrtQ : ℚ → ℚ) (rows : List PlayerRow) : List ℚ :=
  let roles := rows.map (fun r => r.role.getD "UNKNOWN")
  let zd := zscore_within_role sqrtQ (roles.zip (rows.map (·.damage_share)))
  let zk := zscore_within_role sqrtQ (roles.zip (rows.map (·.kill_participation)))
  let zc := zscore_within_role sqrtQ (roles.zip (rows.map (·.cs_per_min)))
  let zv := zscore_within_role sqrtQ (roles.zip (rows.map (·.vision_per_min)))
  (List.range rows.length).map (fun i =>
    35/100 * zd.getD i 0 + 30/100 * zk.getD i 0
      + 25/100 * zc.getD i 0 + 10/100 * zv.getD i 0)

lemma popVar_singleton (x : ℚ) : popVar [x] = 0 := by
  simp [popVar, listMean]

/-- C5: whenever the standard deviation of a role group is zero, every row
of the group receives z exactly 0 (the zero branch multiplies by 0, so the
result is a genuine rational, never NaN); a group of size 1 has population
variance 0, hence z = 0 as soon as the square root sends 0 to 0 (which the
float square root does); and a row whose four z-scores are all 0 gets
impact score exactly 0, a finite value. -/
theorem zscore_zero_variance_law (sqrtQ : ℚ → ℚ) :
    (∀ (rows : List (String × ℚ)) (i : ℕ) (hi : i < rows.length),
      sqrtQ (popVar (role_group rows (rows.get ⟨i, hi⟩).1)) = 0 →
        (zscore_within_role sqrtQ rows).getD i 0 = 0) ∧
    (∀ x : ℚ, popVar [x] = 0) ∧
    (sqrtQ 0 = 0 →
      ∀ (rows : List (String × ℚ)) (i : ℕ) (hi : i < rows.length),
        role_group rows (rows.get ⟨i, hi⟩).1 = [(rows.get ⟨i, hi⟩).2] →
        (zscore_within_role sqrtQ rows).getD i 0 = 0) ∧
    (∀ (prows : List PlayerRow) (i : ℕ), i < prows.length →
      (build_impact_score sqrtQ prows).getD i 0 =
        35/100 * (zscore_within_role sqrtQ
            ((prows.map (fun r => r.role.getD "UNKNOWN")).zip
              (prows.map (·.damage_share)))).getD i 0
        + 30/100 * (zscore_within_role sqrtQ
            ((prows.map (fun r => r.role.getD "UNKNOWN")).zip
              (prows.map (·.kill_participation)))).getD i 0
        + 25/100 * (zscore_within_role sqrtQ
            ((prows.map (fun r => r.role.getD "UNKNOWN")).zip
              (prows.map (·.cs_per_min)))).getD i 0
        + 10/100 * (zscore_within_role sqrtQ
            ((prows.map (fun r => r.role.getD "UNKNOWN")).zip
              (prows.map (·.vision_per_min)))).getD i 0) := by
  have hmain : ∀ (rows : List (String × ℚ)) (i : ℕ) (hi : i < rows.length),
      sqrtQ (popVar (role_group rows (rows.get ⟨i, hi⟩).1)) = 0 →
        (zscore_within_role sqrtQ rows).getD i 0 = 0 := by
    intro rows i hi hstd
    have hlen : i < (zscore_within_role sqrtQ rows).length := by
      simpa [zscore_within_role] using hi
    rw [List.getD_eq_getElem _ _ hlen]
    simp only [zscore_within_role, List.getElem_map]
    rw [z_of]
    simp only [List.get_eq_getElem] at hstd
    simp [hstd]
  refine ⟨hmain, popVar_singleton, ?_, ?_⟩
  · intro h0 rows i hi hsingle
    exact hmain rows i hi (by rw [hsingle, popVar_singleton, h0])
  · intro prows i hi
    have hlen : i < (build_impact_score sqrtQ prows).length := by
      simpa [build_impact_score] using hi
    rw [List.getD_eq_getElem _ _ hlen]
    simp [build_impact_score]

/-- C5 witness: two identical MIDDLE rows with value 3 form a
zero-variance group and both receive z exactly 0, under the identity
standing in for the square root (it sends 0 to 0, the only value used). -/
theorem zscore_zero_variance_law_witness :
    (zscore_within_role id [("MIDDLE", 3), ("MIDDLE", 3)]).getD 0 0 = 0 := by
  refine (zscore_zero_variance_law id).1 [("MIDDLE", 3), ("MIDDLE", 3)] 0 (by norm_num) ?_
  norm_num [role_group, popVar, listMean]

/-! ## Team rank resolver (S06_role_impact_score.py, rank_on_team) -/

/-- The row fields `rank_on_team` reads. -/
structure TeamRow where
  match_id : String
  team_id : ℤ
  impact_score : ℚ
deriving DecidableEq

/-- The impact scores of one (match, team) group, in dataframe order. -/
def team_group (rows : List TeamRow) (m : String) (t : ℤ) : List ℚ :=
  (rows.filter (fun s => s.match_id == m && s.team_id == t)).map (·.impact_score)

/-- Pandas Series.rank(ascending=False, method="min") of one value within
its group: one plus the position of the first occurrence of the value in
the descending sort of the group. -/
def rank_min_desc (g : List ℚ) (x : ℚ) : ℕ :=
  (g.insertionSort (· ≥ ·)).indexOf x + 1

/-- Embedding of `rank_on_team`: each row is ranked by impact_score within
its (match_id, team_id) group. Pandas returns the rank as a float; the
rank is integer-valued and the model keeps it a natural number. -/
def rank_on_team (rows : List TeamRow) : List ℕ :=
  rows.map (fun r =>
    rank_min_desc (team_group rows r.match_id r.team_id) r.impact_score)

lemma indexOf_sorted_ge (x : ℚ) :
    ∀ l : List ℚ, l.Sorted (· ≥ ·) → x ∈ l →
      l.indexOf x = l.countP (fun y => decide (x < y))
  | [], _, hx => absurd hx (List.not_mem_nil x)
  | a :: t, hs, hx => by
    have ha : ∀ b ∈ t, a ≥ b := (List.sorted_cons.mp hs).1
    have ht : t.Sorted (· ≥ ·) := (List.sorted_cons.mp hs).2
    by_cases hax : a = x
    · subst hax
      rw [List.indexOf_cons_self]
      have hzero : t.countP (fun y => decide (a < y)) = 0 := by
        rw [List.countP_eq_zero]
        intro b hb
        simpa using not_lt.mpr (ha b hb)
      simp [List.countP_cons, hzero]
    · have hxt : x ∈ t := by
        rcases List.mem_cons.mp hx with h | h
        · exact absurd h.symm hax
        · exact h
      have hxa : x < a := lt_of_le_of_ne (ha x hxt) (fun h => hax h.symm)
      rw [List.indexOf_cons_ne _ (by simpa using hax),
        indexOf_sorted_ge x t ht hxt]
      simp [List.countP_cons, hxa, Nat.add_comm]

lemma rank_min_desc_eq_countP (g : List ℚ) (x : ℚ) (hx : x ∈ g) :
    rank_min_desc g x = 1 + g.countP (fun y => decide (x < y)) := by
  have hperm := List.perm_insertionSort (· ≥ ·) g
  have hsorted : (g.insertionSort (· ≥ ·)).Sorted (· ≥ ·) :=
    List.sorted_insertionSort (· ≥ ·) g
  have hmem : x ∈ g.insertionSort (· ≥ ·) := hperm.mem_iff.mpr hx
  rw [rank_min_desc, indexOf_sorted_ge x _ hsorted hmem, hperm.countP_eq]
  exact Nat.add_comm _ 1

/-- The concrete example of the claim: three players of one team with
impact values 10, 10, 7. -/
def ex_team_rows : List TeamRow :=
  [⟨"M1", 100, 10⟩, ⟨"M1", 100, 10⟩, ⟨"M1", 100, 7⟩]

lemma self_mem_team_group (rows : List TeamRow) (i : ℕ) (hi : i < rows.length) :
    (rows.get ⟨i, hi⟩).impact_score ∈
      team_group rows (rows.get ⟨i, hi⟩).match_id (rows.get ⟨i, hi⟩).team_id := by
  refine List.mem_map.mpr ⟨rows.get ⟨i, hi⟩, ?_, rfl⟩
  refine List.mem_filter.mpr ⟨List.get_mem rows i hi, ?_⟩
  simp

/-- C6: within each (match, team) group, the assigned rank of row i equals
1 plus the number of group members with strictly greater impact score; it
is at least 1; rows of the same group with equal scores share the rank
(ties get the lowest eligible rank); if nothing in the group beats row i
its rank is 1, and if the entries beating row i are exactly the
occurrences of the top value, row i gets 1 plus their multiplicity (the
min-rank law); values [10, 10, 7] receive ranks [1, 1, 3]. -/
theorem rank_on_team_min_rank (rows : List TeamRow) (i : ℕ) (hi : i < rows.length) :
    ((rank_on_team rows).getD i 0 =
      1 + (team_group rows (rows.get ⟨i, hi⟩).match_id
            (rows.get ⟨i, hi⟩).team_id).countP
          (fun y => decide ((rows.get ⟨i, hi⟩).impact_score < y))) ∧
    1 ≤ (rank_on_team rows).getD i 0 ∧
    (∀ j (hj : j < rows.length),
      (rows.get ⟨j, hj⟩).match_id = (rows.get ⟨i, hi⟩).match_id →
      (rows.get ⟨j, hj⟩).team_id = (rows.get ⟨i, hi⟩).team_id →
      (rows.get ⟨j, hj⟩).impact_score = (rows.get ⟨i, hi⟩).impact_score →
      (rank_on_team rows).getD j 0 = (rank_on_team rows).getD i 0) ∧
    ((∀ y ∈ team_group rows (rows.get ⟨i, hi⟩).match_id
        (rows.get ⟨i, hi⟩).team_id, y ≤ (rows.get ⟨i, hi⟩).impact_score) →
      (rank_on_team rows).getD i 0 = 1) ∧
    (∀ mx : ℚ,
      (∀ y ∈ team_group rows (rows.get ⟨i, hi⟩).match_id
          (rows.get ⟨i, hi⟩).team_id,
        ((rows.get ⟨i, hi⟩).impact_score < y ↔ y = mx)) →
      (rank_on_team rows).getD i 0 =
        1 + (team_group rows (rows.get ⟨i, hi⟩).match_id
              (rows.get ⟨i, hi⟩).team_id).countP (fun y => decide (y = mx))) ∧
    rank_on_team ex_team_rows = [1, 1, 3] := by
  have hrank : ∀ (k : ℕ) (hk : k < rows.length),
      (rank_on_team rows).getD k 0 =
        1 + (team_group rows (rows.get ⟨k, hk⟩).match_id
              (rows.get ⟨k, hk⟩).team_id).countP
            (fun y => decide ((rows.get ⟨k, hk⟩).impact_score < y)) := by
    intro k hk
    have hlen : k < (rank_on_team rows).length := by
      simpa [rank_on_team] using hk
    rw [List.getD_eq_getElem _ _ hlen]
    simp only [rank_on_team, List.getElem_map]
    exact rank_min_desc_eq_countP _ _
      (by simpa using self_mem_team_group rows k hk)
  refine ⟨hrank i hi, ?_, ?_, ?_, ?_, ?_⟩
  · rw [hrank i hi]; exact Nat.le_add_right 1 _
  · intro j hj hm ht hs
    rw [hrank j hj, hrank i hi, hm, ht, hs]
  · intro htop
    rw [hrank i hi]
    have : (team_group rows (rows.get ⟨i, hi⟩).match_id
        (rows.get ⟨i, hi⟩).team_id).countP
        (fun y => decide ((rows.get ⟨i, hi⟩).impact_score < y)) = 0 := by
      rw [List.countP_eq_zero]
      intro b hb
      simpa using not_lt.mpr (htop b hb)
    rw [this]
  · intro mx hmx
    rw [hrank i hi]
    congr 1
    exact List.countP_congr (fun b hb => by simpa using hmx b hb)
  · decide

/-- C6 witness: the characterization applied to the concrete rows
[10, 10, 7]: the third row has two strictly greater group members and
rank 3, and the tied first rows have rank 1. -/
theorem rank_on_team_min_rank_witness :
    (rank_on_team ex_team_rows).getD 2 0 = 3 ∧
    (rank_on_team ex_team_rows).getD 0 0 = 1 := by
  constructor
  · have h := (rank_on_team_min_rank ex_team_rows 2 (by simp [ex_team_rows])).1
    rw [h]; decide
  · have h := (rank_on_team_min_rank ex_team_rows 0 (by simp [ex_team_rows])).1
    rw [h]; decide

/-! ## Timeline model (S08_expected_wins_timeline_model.py) -/

/-- A participant entry of a match JSON, with the fields the S08 helpers
read; the collaborator contract of spec section 6 guarantees the fields
are present. -/
structure Participant where
  puuid : String
  participantId : ℤ
  teamId : ℤ
  win : Bool
deriving DecidableEq

/-- The match JSON, reduced to info.participants. -/
structure MatchJson where
  participants : List Participant
deriving DecidableEq

/-- One entry of participantFrames: the key (participant id, parsed from
its string form) and the cumulative counters read by
team_totals_from_frame. -/
structure PFrame where
  pid : ℤ
  totalGold : ℤ
  xp : ℤ
  minionsKilled : ℤ
  jungleMinionsKilled : ℤ
deriving DecidableEq

/-- A timestamped event of a timeline frame; timestamp and killerId use
Option for the source .get defaults. -/
structure Event where
  type : String
  timestamp : Option ℤ
  killerId : Option ℤ
deriving DecidableEq

/-- One per-minute frame of the timeline. -/
structure Frame where
  participantFrames : List PFrame
  events : List Event
deriving DecidableEq

/-- The timeline JSON, reduced to info.frames. -/
structure Timeline where
  frames : List Frame
deriving DecidableEq

/-- TARGET_MINUTE of S08. -/
def TARGET_MINUTE : ℕ := 10

/-- TARGET_MS of S08: the ten-minute cutoff in milliseconds. -/
def TARGET_MS : ℤ := TARGET_MINUTE * 60 * 1000

/-- The source default 10**12 for an event with a missing timestamp. -/
def PY_BIG : ℤ := 10 ^ 12

/-- Python dict lookup on the association list built by insertion order:
the last insertion for a key wins. -/
def dictGet (d : List (ℤ × ℤ)) (k : ℤ) : Option ℤ :=
  (d.reverse.find? (fun kv => kv.1 == k)).map (·.2)

/-- Embedding of `get_team_map_from_match`: the insertion sequence of the
participantId to teamId dict. -/
def get_team_map_from_match (m : MatchJson) : List (ℤ × ℤ) :=
  m.participants.map (fun p => (p.participantId, p.teamId))

/-- Embedding of `get_my_team_id`: first participant with my puuid, or the
ValueError the source raises. -/
def get_my_team_id (m : MatchJson) (my_puuid : String) : Except String ℤ :=
  match m.participants.find? (fun p => p.puuid == my_puuid) with
  | some p => .ok p.teamId
  | none => .error "Could not find my puuid in match participants."

/-- Embedding of `frame_at_minute`: error on an empty frame list,
otherwise the frame at the minute index, clamped to the last frame. -/
def frame_at_minute (t : Timeline) (minute : ℕ) : Except String Frame :=
  if hne : t.frames.isEmpty then .error "Timeline has no frames."
  else if h : minute < t.frames.length then .ok (t.frames.get ⟨minute, h⟩)
  else .ok (t.frames.getLast (by simpa [List.isEmpty_iff] using hne))

/-- Team totals accumulated by `team_totals_from_frame` for one side. -/
structure Totals where
  gold : ℤ
  xp : ℤ
  cs : ℤ
deriving DecidableEq

/-- The zero totals each team starts from. -/
def Totals.zero : Totals := ⟨0, 0, 0⟩

/-- Adding one participant frame to a team total: gold, xp, and lane plus
jungle minions. -/
def Totals.addPF (t : Totals) (pf : PFrame) : Totals :=
  ⟨t.gold + pf.totalGold, t.xp + pf.xp,
    t.cs + pf.minionsKilled + pf.jungleMinionsKilled⟩

/-- Embedding of `team_totals_from_frame`: participants mapped to side 100
or 200 are accumulated into that side; others are skipped silently. -/
def team_totals_from_frame (f : Frame) (d : List (ℤ × ℤ)) : Totals × Totals :=
  f.participantFrames.foldl
    (fun acc pf =>
      match dictGet d pf.pid with
      | some 100 => (acc.1.addPF pf, acc.2)
      | some 200 => (acc.1, acc.2.addPF pf)
      | _ => acc)
    (Totals.zero, Totals.zero)

/-- The per-event step of the kill counters of `kills_diff_up_to_10min`:
skip non-kill events, events after the cutoff (a missing timestamp
defaults to 10^12, which is past the cutoff), events with a missing or
zero killerId, and killers mapped to neither side. -/
def killStep (d : List (ℤ × ℤ)) (myTeam enemyTeam : ℤ)
    (acc : ℤ × ℤ) (ev : Event) : ℤ × ℤ :=
  if ev.type ≠ "CHAMPION_KILL" then acc
  else if ev.timestamp.getD PY_BIG > TARGET_MS then acc
  else
    match ev.killerId with
    | none => acc
    | some k =>
      if k = 0 then acc
      else
        match dictGet d k with
        | some kt =>
          if kt = myTeam then (acc.1 + 1, acc.2)
          else if kt = enemyTeam then (acc.1, acc.2 + 1)
          else acc
        | none => acc

/-- Embedding of `kills_diff_up_to_10min`: scan the events of every frame
accumulating the two kill counters, then return my kills minus enemy
kills. -/
def kills_diff_up_to_10min (t : Timeline) (d : List (ℤ × ℤ)) (myTeam : ℤ) : ℤ :=
  let enemyTeam : ℤ := if myTeam = 100 then 200 else 100
  let counts := (t.frames.flatMap (fun fr => fr.events)).foldl
    (killStep d myTeam enemyTeam) (0, 0)
  counts.1 - counts.2

/-- The independent counting predicate of the claim: a champion-kill event
at or before the cutoff whose present, nonzero killer id is mapped to the
given side. -/
def countedKillFor (d : List (ℤ × ℤ)) (team : ℤ) (ev : Event) : Bool :=
  ev.type == "CHAMPION_KILL" && ev.timestamp.getD PY_BIG ≤ TARGET_MS &&
    (match ev.killerId with
     | some k => !(k == 0) && dictGet d k == some team
     | none => false)

/-- One feature row of the early_features table. -/
structure FeatureRow where
  match_id : String
  win : Bool
  gold_diff_10 : ℤ
  xp_diff_10 : ℤ
  cs_diff_10 : ℤ
  kills_diff_10 : ℤ
deriving DecidableEq

/-- Totals of a given side from the pair computed by
team_totals_from_frame, as the source indexes totals10 by team id. -/
def totalsFor (tt : Totals × Totals) (team : ℤ) : Totals :=
  if team = 100 then tt.1 else tt.2

/-- Embedding of `build_features_for_match`. The two Option arguments
model the existence of the match file and the timeline file; a missing
file returns ok none (row skipped). A missing target participant raises
inside get_my_team_id and the error propagates, as in the source, where
the later win-is-None skip branch is unreachable for that case. -/
def build_features_for_match (match_id : String) (matchFile : Option MatchJson)
    (timelineFile : Option Timeline) (my_puuid : String) :
    Except String (Option FeatureRow) := do
  match matchFile, timelineFile with
  | some match_json, some timeline_json =>
    let pid_to_team := get_team_map_from_match match_json
    let my_team ← get_my_team_id match_json my_puuid
    let enemy_team : ℤ := if my_team = 100 then 200 else 100
    match (match_json.participants.find? (fun p => p.puuid == my_puuid)).map
        (·.win) with
    | none => return none
    | some win =>
      let frame10 ← frame_at_minute timeline_json TARGET_MINUTE
      let totals10 := team_totals_from_frame frame10 pid_to_team
      let gold_diff_10 := (totalsFor totals10 my_team).gold -
        (totalsFor totals10 enemy_team).gold
      let xp_diff_10 := (totalsFor totals10 my_team).xp -
        (totalsFor totals10 enemy_team).xp
      let cs_diff_10 := (totalsFor totals10 my_team).cs -
        (totalsFor totals10 enemy_team).cs
      let kills_diff_10 := kills_diff_up_to_10min timeline_json pid_to_team my_team
      return some ⟨match_id, win, gold_diff_10, xp_diff_10, cs_diff_10,
        kills_diff_10⟩
  | _, _ => return none

/-- Embedding of the feature loop of `main`: no exception handler wraps
build_features_for_match, so the first raised error aborts the whole
batch; rows of skipped matches are simply not appended. -/
def build_all_features (inputs : List (String × Option MatchJson × Option Timeline))
    (my_puuid : String) : Except String (List FeatureRow) :=
  match inputs with
  | [] => .ok []
  | (mid, m, t) :: rest => do
    let row? ← build_features_for_match mid m t my_puuid
    let rows ← build_all_features rest my_puuid
    match row? with
    | some r => return r :: rows
    | none => return rows

/-- A frame with one participant counter, used to tell concrete frames
apart. -/
def ex_frame (k : ℤ) : Frame := ⟨[⟨k, 0, 0, 0, 0⟩], []⟩

/-- A concrete timeline with exactly 8 recorded frames. -/
def ex_timeline8 : Timeline :=
  ⟨[ex_frame 0, ex_frame 1, ex_frame 2, ex_frame 3,
    ex_frame 4, ex_frame 5, ex_frame 6, ex_frame 7]⟩

/-- C4 counterexample: a timeline with zero frames also has fewer than
M+1 entries, yet the snapshot extractor raises instead of clamping, so
the claim read over every short timeline fails at the empty one. -/
theorem frame_at_minute_empty_frames_fails :
    frame_at_minute ⟨[]⟩ TARGET_MINUTE = .error "Timeline has no frames." ∧
    (⟨[]⟩ : Timeline).frames.length < TARGET_MINUTE + 1 := by
  exact ⟨rfl, by decide⟩

/-- C4 amended: for every timeline with at least one frame, a minute past
the recorded frames is clamped to the last available frame without error,
and an in-range minute returns the frame at that index; a timeline with
zero frames raises "Timeline has no frames.". -/
theorem frame_at_minute_clamps (t : Timeline) (minute : ℕ) (hne : t.frames ≠ []) :
    (t.frames.length ≤ minute →
      frame_at_minute t minute = .ok (t.frames.getLast hne)) ∧
    (∀ h : minute < t.frames.length,
      frame_at_minute t minute = .ok (t.frames.get ⟨minute, h⟩)) := by
  have hE : t.frames.isEmpty = false := by
    simpa [List.isEmpty_iff] using hne
  constructor
  · intro hle
    have hnotlt : ¬ minute < t.frames.length := not_lt.mpr hle
    simp [frame_at_minute, hE, hnotlt]
  · intro h
    simp [frame_at_minute, hE, h]

/-- C4 witness: with exactly 8 recorded frames and cutoff 10 the snapshot
extractor returns the frame at index 7 without error. -/
theorem frame_at_minute_clamps_witness :
    frame_at_minute ex_timeline8 TARGET_MINUTE = .ok (ex_frame 7) ∧
    ex_timeline8.frames.length = 8 := by
  constructor
  · have h := (frame_at_minute_clamps ex_timeline8 TARGET_MINUTE
      (by simp [ex_timeline8])).1 (by simp [ex_timeline8]; decide)
    rw [h]
    rfl
  · decide

/-- A concrete match record whose participant list does not contain the
target player identifier "me". -/
def other_match : MatchJson :=
  ⟨[⟨"alice", 1, 100, true⟩, ⟨"bob", 6, 200, false⟩]⟩

/-- A nonempty concrete timeline. -/
def one_frame_timeline : Timeline := ⟨[ex_frame 0]⟩

/-- C3 counterexample: a match whose files are available but whose
participant list lacks the target identifier makes the batch loop return
the raised error instead of skipping the row and continuing: the
remaining match contributes nothing and no row list is produced. -/
theorem missing_participant_aborts_batch :
    build_all_features
        [("M_BAD", some other_match, some one_frame_timeline),
         ("M_SKIP", none, none)] "me"
      = .error "Could not find my puuid in match participants." ∧
    (∀ p ∈ other_match.participants, p.puuid ≠ "me") := by
  exact ⟨rfl, by decide⟩

/-- C3 amended: when either underlying file is unavailable the match is
skipped (ok none, no row emitted); but when both files are available and
the participant list has no entry with the target identifier,
get_my_team_id raises and the error propagates out of
build_features_for_match and aborts build_all_features, whatever matches
remain. -/
theorem build_features_missing_participant (mid : String) (m : MatchJson)
    (t : Timeline) (puuid : String)
    (h : ∀ p ∈ m.participants, p.puuid ≠ puuid) :
    build_features_for_match mid (some m) (some t) puuid =
      .error "Could not find my puuid in match participants." ∧
    (∀ t? : Option Timeline,
      build_features_for_match mid none t? puuid = .ok none) ∧
    (∀ m? : Option MatchJson,
      build_features_for_match mid m? none puuid = .ok none) ∧
    (∀ rest : List (String × Option MatchJson × Option Timeline),
      build_all_features ((mid, some m, some t) :: rest) puuid =
        .error "Could not find my puuid in match participants.") := by
  have hfind : m.participants.find? (fun p => p.puuid == puuid) = none := by
    rw [List.find?_eq_none]
    intro p hp
    simpa using h p hp
  have hmain : build_features_for_match mid (some m) (some t) puuid =
      .error "Could not find my puuid in match participants." := by
    simp [build_features_for_match, get_my_team_id, hfind]
  refine ⟨hmain, ?_, ?_, ?_⟩
  · intro t?
    cases t? <;> rfl
  · intro m?
    cases m? <;> rfl
  · intro rest
    simp only [build_all_features, hmain]
    rfl

/-- C3 witness: the amended behaviour at concrete inputs: the bad match
raises, a match with a missing file is skipped with no row. -/
theorem build_features_missing_participant_witness :
    build_features_for_match "M_BAD" (some other_match)
        (some one_frame_timeline) "me" =
      .error "Could not find my puuid in match participants." ∧
    build_features_for_match "M_SKIP" none (some one_frame_timeline) "me" =
      .ok none := by
  have h := build_features_missing_participant "M_BAD" other_match
    one_frame_timeline "me" (by decide)
  exact ⟨h.1, h.2.1 (some one_frame_timeline)⟩

lemma killStep_eq (d : List (ℤ × ℤ)) (mt et : ℤ) (hne : mt ≠ et)
    (acc : ℤ × ℤ) (ev : Event) :
    killStep d mt et acc ev =
      (acc.1 + if countedKillFor d mt ev then 1 else 0,
       acc.2 + if countedKillFor d et ev then 1 else 0) := by
  rcases acc with ⟨a, b⟩
  by_cases htype : ev.type = "CHAMPION_KILL"
  · by_cases hts : ev.timestamp.getD PY_BIG ≤ TARGET_MS
    · have hnotgt : ¬ ev.timestamp.getD PY_BIG > TARGET_MS := not_lt.mpr hts
      rcases hk : ev.killerId with _ | k
      · simp [killStep, countedKillFor, htype, hts, hnotgt, hk]
      · by_cases hk0 : k = 0
        · simp [killStep, countedKillFor, htype, hts, hnotgt, hk, hk0]
        · rcases hteam : dictGet d k with _ | kt
          · simp [killStep, countedKillFor, htype, hts, hnotgt, hk, hk0, hteam]
          · by_cases hmt : kt = mt
            · have hket : ¬ kt = et := hmt ▸ hne
              simp [killStep, countedKillFor, htype, hts, hnotgt, hk, hk0,
                hteam, hmt, hket, hne]
            · by_cases het : kt = et
              · have hetmt : ¬ et = mt := fun hh => hne hh.symm
                simp [killStep, countedKillFor, htype, hts, hnotgt, hk, hk0,
                  hteam, hmt, het, hetmt]
              · simp [killStep, countedKillFor, htype, hts, hnotgt, hk, hk0,
                  hteam, hmt, het]
    · have hgt : ev.timestamp.getD PY_BIG > TARGET_MS := not_le.mp hts
      simp [killStep, countedKillFor, htype, hts, hgt]
  · simp [killStep, countedKillFor, htype]

lemma foldl_killStep (d : List (ℤ × ℤ)) (mt et : ℤ) (hne : mt ≠ et) :
    ∀ (evs : List Event) (acc : ℤ × ℤ),
      evs.foldl (killStep d mt et) acc =
        (acc.1 + (evs.countP (countedKillFor d mt) : ℤ),
         acc.2 + (evs.countP (countedKillFor d et) : ℤ))
  | [], acc => by simp
  | ev :: rest, acc => by
    rw [List.foldl_cons, killStep_eq d mt et hne acc ev,
      foldl_killStep d mt et hne rest _]
    refine Prod.ext ?_ ?_ <;>
      rcases h1 : countedKillFor d mt ev <;>
      rcases h2 : countedKillFor d et ev <;>
      simp [List.countP_cons, h1, h2] <;>
      omega

/-- C7: the kill differential equals the number of counted kill events of
the target side minus that of the opposing side, where a counted kill
event is a CHAMPION_KILL with timestamp at most the 600000 ms cutoff
whose present nonzero killerId is mapped to that side; any event with
missing, zero, or unmapped-to-either-side killerId satisfies neither
predicate, contributing to neither count. -/
theorem kills_diff_eq_counted (t : Timeline) (d : List (ℤ × ℤ)) (myTeam : ℤ) :
    (kills_diff_up_to_10min t d myTeam =
      ((t.frames.flatMap (fun fr => fr.events)).countP
          (countedKillFor d myTeam) : ℤ) -
        ((t.frames.flatMap (fun fr => fr.events)).countP
          (countedKillFor d (if myTeam = 100 then 200 else 100)) : ℤ)) ∧
    TARGET_MS = 600000 ∧
    (∀ ev : Event,
      (ev.killerId = none ∨ ev.killerId = some 0 ∨
        (∀ k, ev.killerId = some k →
          dictGet d k ≠ some myTeam ∧
          dictGet d k ≠ some (if myTeam = 100 then 200 else 100))) →
      countedKillFor d myTeam ev = false ∧
      countedKillFor d (if myTeam = 100 then 200 else 100) ev = false) := by
  have hne : myTeam ≠ (if myTeam = 100 then 200 else 100) := by
    by_cases h : myTeam = 100 <;> simp [h]
  refine ⟨?_, rfl, ?_⟩
  · rw [kills_diff_up_to_10min,
      foldl_killStep d myTeam (if myTeam = 100 then 200 else 100) hne]
    push_cast
    try ring
  · intro ev hev
    rcases hev with hnone | hzero | hunmapped
    · constructor <;> simp [countedKillFor, hnone]
    · constructor <;> simp [countedKillFor, hzero]
    · rcases hk : ev.killerId with _ | k
      · constructor <;> simp [countedKillFor, hk]
      · obtain ⟨hmy, henemy⟩ := hunmapped k hk
        constructor <;>
          simp [countedKillFor, hk, hmy, henemy]

/-- C7 witness: a concrete timeline with one mapped kill per side before
the cutoff, one late kill, one killerId 0 kill, and one unmapped kill:
the differential is 0 and the excluded events are counted for neither
side. -/
theorem kills_diff_eq_counted_witness :
    kills_diff_up_to_10min
        ⟨[⟨[], [⟨"CHAMPION_KILL", some 1000, some 1⟩,
               ⟨"CHAMPION_KILL", some 2000, some 6⟩,
               ⟨"CHAMPION_KILL", some 700000, some 1⟩,
               ⟨"CHAMPION_KILL", some 3000, some 0⟩,
               ⟨"CHAMPION_KILL", some 4000, some 9⟩]⟩]⟩
        [(1, 100), (6, 200)] 100 = 0 ∧
    countedKillFor [(1, 100), (6, 200)] 100
      ⟨"CHAMPION_KILL", some 3000, some 0⟩ = false := by
  have h := kills_diff_eq_counted
    ⟨[⟨[], [⟨"CHAMPION_KILL", some 1000, some 1⟩,
           ⟨"CHAMPION_KILL", some 2000, some 6⟩,
           ⟨"CHAMPION_KILL", some 700000, some 1⟩,
           ⟨"CHAMPION_KILL", some 3000, some 0⟩,
           ⟨"CHAMPION_KILL", some 4000, some 9⟩]⟩]⟩
    [(1, 100), (6, 200)] 100
  constructor
  · rw [h.1]; decide
  · exact (h.2.2 ⟨"CHAMPION_KILL", some 3000, some 0⟩ (Or.inr (Or.inl rfl))).1

/-! ## Expectation model (S08 cross-validated probabilities) -/

/-- The fold containing a given row index: the first fold listing it. -/
def foldOf (folds : List (List ℕ)) (i : ℕ) : Option (List ℕ) :=
  folds.find? (fun f => f.contains i)

/-- Modelled from the spec: the cross-validation driver is
scikit-learn's StratifiedKFold(n_splits=5, shuffle=True, random_state=42)
together with cross_val_predict(model, X, y, cv, method="predict_proba"),
which is library code outside this repository; S08 main only calls it.
Following the words of the spec: partition the rows into folds; for each
fold, train on the remaining folds and predict probabilities only for the
held-out fold; concatenate predictions back into original row order. The
fold assignment and the fitted per-training-set predictor are abstract
parameters, and rows are identified with their indices. -/
def cross_val_predict (n : ℕ) (folds : List (List ℕ))
    (trainPredict : List ℕ → ℕ → ℚ) : List ℚ :=
  (List.range n).map (fun i =>
    match foldOf folds i with
    | some f => trainPredict ((List.range n).filter (fun j => !f.contains j)) i
    | none => 0)

/-- C2: the cross-validated probability vector has length equal to the
row count; if the trained models emit probabilities in [0, 1] then every
entry lies in [0, 1]; and, provided every row is covered by a fold, the
entry of each row is the prediction of a model trained on an index set
not containing that row, placed at the row's original position. -/
theorem cross_val_predict_out_of_fold (n : ℕ) (folds : List (List ℕ))
    (trainPredict : List ℕ → ℕ → ℚ)
    (hcover : ∀ i, i < n → (foldOf folds i).isSome)
    (hbounds : ∀ T j, 0 ≤ trainPredict T j ∧ trainPredict T j ≤ 1) :
    (cross_val_predict n folds trainPredict).length = n ∧
    (∀ i, i < n →
      0 ≤ (cross_val_predict n folds trainPredict).getD i 0 ∧
      (cross_val_predict n folds trainPredict).getD i 0 ≤ 1) ∧
    (∀ i, i < n → ∃ T : List ℕ, i ∉ T ∧
      (cross_val_predict n folds trainPredict).getD i 0 = trainPredict T i) := by
  have hlen : (cross_val_predict n folds trainPredict).length = n := by
    simp [cross_val_predict]
  have helem : ∀ i, i < n →
      (cross_val_predict n folds trainPredict).getD i 0 =
        match foldOf folds i with
        | some f => trainPredict ((List.range n).filter (fun j => !f.contains j)) i
        | none => 0 := by
    intro i hi
    have hl : i < (cross_val_predict n folds trainPredict).length := by
      rw [hlen]; exact hi
    rw [List.getD_eq_getElem _ _ hl]
    simp [cross_val_predict]
  refine ⟨hlen, ?_, ?_⟩
  · intro i hi
    rw [helem i hi]
    rcases hf : foldOf folds i with _ | f
    · simp
    · exact hbounds _ i
  · intro i hi
    obtain ⟨f, hf⟩ := Option.isSome_iff_exists.mp (hcover i hi)
    refine ⟨(List.range n).filter (fun j => !f.contains j), ?_, ?_⟩
    · intro hmem
      have h2 : (!f.contains i) = true := (List.mem_filter.mp hmem).2
      have hcontains : f.contains i = true := by
        simpa using List.find?_some hf
      rw [hcontains] at h2
      simp at h2
    · rw [helem i hi, hf]

/-- C2 witness: four rows in two folds with a constant-one-half
predictor: the vector has length 4 and the entry of row 1 is produced
without row 1 in its training set. -/
theorem cross_val_predict_out_of_fold_witness :
    (cross_val_predict 4 [[0, 2], [1, 3]] (fun _ _ => 1/2)).length = 4 ∧
    (0 ≤ (cross_val_predict 4 [[0, 2], [1, 3]] (fun _ _ => 1/2)).getD 1 0 ∧
      (cross_val_predict 4 [[0, 2], [1, 3]] (fun _ _ => 1/2)).getD 1 0 ≤ 1) ∧
    (∃ T : List ℕ, 1 ∉ T ∧
      (cross_val_predict 4 [[0, 2], [1, 3]] (fun _ _ => 1/2)).getD 1 0 =
        (fun (_ : List ℕ) (_ : ℕ) => (1/2 : ℚ)) T 1) := by
  have h := cross_val_predict_out_of_fold 4 [[0, 2], [1, 3]]
    (fun _ _ => 1/2) (by decide)
    (fun T j => ⟨by norm_num, by norm_num⟩)
  exact ⟨h.1, h.2.1 1 (by norm_num), h.2.2 1 (by norm_num)⟩
